import Mathlib

/-!
Verification of the stack0 SDK's long-running-operation (LRO) poll loops,
HTTP transport, and response hydration, as a shallow embedding of the
TypeScript source.

Conventions of the embedding:
* JavaScript `Date` values on decoded responses are either wire strings or
  native dates; `JsDate` models this union.  `new Date(s)` is modelled by an
  arbitrary parse function `String → Int` (milliseconds), passed explicitly.
* `await`-ed remote calls are modelled by an environment (`PollEnv`) giving
  the result of the submit call and of the n-th status fetch, together with
  the wall-clock duration each call consumes.  `Date.now()` is modelled by an
  accumulated `elapsed` counter (milliseconds since `startTime`); a sleep of
  `pollInterval` advances it by exactly `pollInterval`.
* A thrown `new Error(message)` in the poll loops is `JsError.err message`;
  an operation's outcome is `Except JsError σ`.
* `while` loops are embedded fuel-indexed; `none` means the fuel ran out
  before the loop finished, so every theorem about an outcome is conditioned
  on the loop having produced `some` result.
-/

deriving instance DecidableEq for Except

namespace Stack0

/-- A JavaScript `Date | string` field as it appears on a decoded response:
either still the wire string or already a native date (milliseconds). -/
inductive JsDate where
  | str (s : String)
  | date (ms : Int)
deriving DecidableEq, Repr

/-- A thrown `new Error(message)` in the SDK's poll loops. -/
inductive JsError where
  | err (message : String)
deriving DecidableEq, Repr

/-- JavaScript `x || d` for `x : string | null | undefined`: `null`,
`undefined` and the empty string are falsy and select the default. -/
def orFalsy (x : Option String) (d : String) : String :=
  match x with
  | some v => if v = "" then d else v
  | none => d

/-- `Screenshot` snapshot (src/webdata types; fields not consulted by the
poll loop or date hydration are omitted). `status` is one of
`pending | processing | completed | failed` on the wire. -/
structure Screenshot where
  id : String
  status : String
  imageUrl : Option String
  error : Option String
  createdAt : JsDate
  completedAt : Option JsDate
deriving DecidableEq, Repr

/-- `Extraction` snapshot (fields not consulted by the poll loop or date
hydration are omitted). -/
structure Extraction where
  id : String
  status : String
  markdown : Option String
  error : Option String
  createdAt : JsDate
  completedAt : Option JsDate
deriving DecidableEq, Repr

/-- `WorkflowRun` snapshot (fields not consulted by the poll loop or date
hydration are omitted). `status` is one of
`pending | running | completed | failed | cancelled` on the wire. -/
structure WorkflowRun where
  id : String
  status : String
  output : Option String
  error : Option String
  createdAt : JsDate
  startedAt : Option JsDate
  completedAt : Option JsDate
deriving DecidableEq, Repr

/-- `BatchJob` snapshot of the webdata client (fields not consulted by the
poll loop or date hydration are omitted). -/
structure BatchJob where
  id : String
  status : String
  totalUrls : Nat
  successfulUrls : Nat
  failedUrls : Nat
  createdAt : JsDate
  startedAt : Option JsDate
  completedAt : Option JsDate
deriving DecidableEq, Repr

/-- `BatchScreenshotJob` snapshot of the screenshots client (fields not
consulted by the poll loop or date hydration are omitted). -/
structure BatchScreenshotJob where
  id : String
  status : String
  totalUrls : Nat
  successfulUrls : Nat
  failedUrls : Nat
  createdAt : JsDate
  startedAt : Option JsDate
  completedAt : Option JsDate
deriving DecidableEq, Repr

/-- Counters observed during one `...AndWait` invocation: how many times the
create endpoint was called, how many status fetches were issued, and how many
inter-poll sleeps ran. -/
structure PollStats where
  submits : Nat
  fetches : Nat
  sleeps : Nat
deriving DecidableEq, Repr

/-- The remote collaborator as seen by one `...AndWait` invocation: the
result of the submit call (`.ok handle` or a thrown transport error), the
result of the n-th status fetch, and the wall-clock milliseconds each of
those calls takes. -/
structure PollEnv (σ : Type) where
  submit : Except JsError String
  submitDur : Nat
  fetch : Nat → Except JsError σ
  fetchDur : Nat → Nat

namespace Webdata

/-- The `while` loop of `Webdata.screenshotAndWait` (src/unnamed/part_001,
lines 168-185), fuel-indexed.  `elapsed` is `Date.now() - startTime` at the
top-of-loop check, `n` the number of fetches already issued, `sleeps` the
number of completed inter-poll delays. -/
def screenshotAndWaitLoop (env : PollEnv Screenshot) (pollInterval timeout : Nat) :
    Nat → Nat → Nat → Nat → Option (Except JsError Screenshot × PollStats)
  | 0, _, _, _ => none
  | fuel + 1, elapsed, n, sleeps =>
    if elapsed < timeout then
      match env.fetch n with
      | .error e => some (.error e, ⟨1, n + 1, sleeps⟩)
      | .ok screenshot =>
        if screenshot.status == "completed" || screenshot.status == "failed" then
          if screenshot.status == "failed" then
            some (.error (.err (orFalsy screenshot.error "Screenshot failed")), ⟨1, n + 1, sleeps⟩)
          else
            some (.ok screenshot, ⟨1, n + 1, sleeps⟩)
        else
          screenshotAndWaitLoop env pollInterval timeout fuel
            (elapsed + env.fetchDur n + pollInterval) (n + 1) (sleeps + 1)
    else
      some (.error (.err "Screenshot timed out"), ⟨1, n, sleeps⟩)

/-- `Webdata.screenshotAndWait` (src/unnamed/part_001, lines 159-186).
`startTime` is recorded before the submit call, so the loop's first deadline
check sees `elapsed = env.submitDur`.  Source defaults: `pollInterval = 1000`,
`timeout = 60000`. -/
def screenshotAndWait (env : PollEnv Screenshot) (pollInterval timeout fuel : Nat) :
    Option (Except JsError Screenshot × PollStats) :=
  match env.submit with
  | .error e => some (.error e, ⟨1, 0, 0⟩)
  | .ok _ => screenshotAndWaitLoop env pollInterval timeout fuel env.submitDur 0 0

/-- The `while` loop of `Webdata.extractAndWait` (src/unnamed/part_001,
lines 311-326), fuel-indexed; identical in shape to the screenshot loop with
the extraction status vocabulary and messages. -/
def extractAndWaitLoop (env : PollEnv Extraction) (pollInterval timeout : Nat) :
    Nat → Nat → Nat → Nat → Option (Except JsError Extraction × PollStats)
  | 0, _, _, _ => none
  | fuel + 1, elapsed, n, sleeps =>
    if elapsed < timeout then
      match env.fetch n with
      | .error e => some (.error e, ⟨1, n + 1, sleeps⟩)
      | .ok extraction =>
        if extraction.status == "completed" || extraction.status == "failed" then
          if extraction.status == "failed" then
            some (.error (.err (orFalsy extraction.error "Extraction failed")), ⟨1, n + 1, sleeps⟩)
          else
            some (.ok extraction, ⟨1, n + 1, sleeps⟩)
        else
          extractAndWaitLoop env pollInterval timeout fuel
            (elapsed + env.fetchDur n + pollInterval) (n + 1) (sleeps + 1)
    else
      some (.error (.err "Extraction timed out"), ⟨1, n, sleeps⟩)

/-- `Webdata.extractAndWait` (src/unnamed/part_001, lines 302-329).
Source defaults: `pollInterval = 1000`, `timeout = 60000`. -/
def extractAndWait (env : PollEnv Extraction) (pollInterval timeout fuel : Nat) :
    Option (Except JsError Extraction × PollStats) :=
  match env.submit with
  | .error e => some (.error e, ⟨1, 0, 0⟩)
  | .ok _ => extractAndWaitLoop env pollInterval timeout fuel env.submitDur 0 0

/-- The `while` loop shared verbatim by `Webdata.batchScreenshotsAndWait`
(src/unnamed/part_001, lines 637-651) and `Webdata.batchExtractionsAndWait`
(lines 675-689): terminal statuses are `completed`, `failed` and `cancelled`,
the job is returned on any of them (no failure branch), and the timeout
message is `Batch job timed out`. -/
def batchJobAndWaitLoop (env : PollEnv BatchJob) (pollInterval timeout : Nat) :
    Nat → Nat → Nat → Nat → Option (Except JsError BatchJob × PollStats)
  | 0, _, _, _ => none
  | fuel + 1, elapsed, n, sleeps =>
    if elapsed < timeout then
      match env.fetch n with
      | .error e => some (.error e, ⟨1, n + 1, sleeps⟩)
      | .ok job =>
        if job.status == "completed" || job.status == "failed" || job.status == "cancelled" then
          some (.ok job, ⟨1, n + 1, sleeps⟩)
        else
          batchJobAndWaitLoop env pollInterval timeout fuel
            (elapsed + env.fetchDur n + pollInterval) (n + 1) (sleeps + 1)
    else
      some (.error (.err "Batch job timed out"), ⟨1, n, sleeps⟩)

/-- `Webdata.batchScreenshotsAndWait` (src/unnamed/part_001, lines 628-652).
Source defaults: `pollInterval = 2000`, `timeout = 300000`. -/
def batchScreenshotsAndWait (env : PollEnv BatchJob) (pollInterval timeout fuel : Nat) :
    Option (Except JsError BatchJob × PollStats) :=
  match env.submit with
  | .error e => some (.error e, ⟨1, 0, 0⟩)
  | .ok _ => batchJobAndWaitLoop env pollInterval timeout fuel env.submitDur 0 0

/-- `Webdata.batchExtractionsAndWait` (src/unnamed/part_001, lines 666-690);
its loop body is textually identical to the batch-screenshot one. -/
def batchExtractionsAndWait (env : PollEnv BatchJob) (pollInterval timeout fuel : Nat) :
    Option (Except JsError BatchJob × PollStats) :=
  match env.submit with
  | .error e => some (.error e, ⟨1, 0, 0⟩)
  | .ok _ => batchJobAndWaitLoop env pollInterval timeout fuel env.submitDur 0 0

end Webdata

namespace Workflows

/-- The `while` loop of `Workflows.runAndWait` (src/src/workflows/client.ts,
lines 275-296): terminal statuses are `completed`, `failed` and `cancelled`;
only `failed` throws, so a cancelled run is returned as-is. -/
def runAndWaitLoop (env : PollEnv WorkflowRun) (pollInterval timeout : Nat) :
    Nat → Nat → Nat → Nat → Option (Except JsError WorkflowRun × PollStats)
  | 0, _, _, _ => none
  | fuel + 1, elapsed, n, sleeps =>
    if elapsed < timeout then
      match env.fetch n with
      | .error e => some (.error e, ⟨1, n + 1, sleeps⟩)
      | .ok run =>
        if run.status == "completed" || run.status == "failed" || run.status == "cancelled" then
          if run.status == "failed" then
            some (.error (.err (orFalsy run.error "Workflow execution failed")), ⟨1, n + 1, sleeps⟩)
          else
            some (.ok run, ⟨1, n + 1, sleeps⟩)
        else
          runAndWaitLoop env pollInterval timeout fuel
            (elapsed + env.fetchDur n + pollInterval) (n + 1) (sleeps + 1)
    else
      some (.error (.err "Workflow execution timed out"), ⟨1, n, sleeps⟩)

/-- `Workflows.runAndWait` (src/src/workflows/client.ts, lines 266-297).
Source defaults: `pollInterval = 2000`, `timeout = 600000`. -/
def runAndWait (env : PollEnv WorkflowRun) (pollInterval timeout fuel : Nat) :
    Option (Except JsError WorkflowRun × PollStats) :=
  match env.submit with
  | .error e => some (.error e, ⟨1, 0, 0⟩)
  | .ok _ => runAndWaitLoop env pollInterval timeout fuel env.submitDur 0 0

end Workflows

namespace Screenshots

/-- The `while` loop of `Screenshots.batchAndWait` (src/src/workflows/client.ts,
lines 593-607): same shape as the webdata batch loops, over
`BatchScreenshotJob`. -/
def batchAndWaitLoop (env : PollEnv BatchScreenshotJob) (pollInterval timeout : Nat) :
    Nat → Nat → Nat → Nat → Option (Except JsError BatchScreenshotJob × PollStats)
  | 0, _, _, _ => none
  | fuel + 1, elapsed, n, sleeps =>
    if elapsed < timeout then
      match env.fetch n with
      | .error e => some (.error e, ⟨1, n + 1, sleeps⟩)
      | .ok job =>
        if job.status == "completed" || job.status == "failed" || job.status == "cancelled" then
          some (.ok job, ⟨1, n + 1, sleeps⟩)
        else
          batchAndWaitLoop env pollInterval timeout fuel
            (elapsed + env.fetchDur n + pollInterval) (n + 1) (sleeps + 1)
    else
      some (.error (.err "Batch job timed out"), ⟨1, n, sleeps⟩)

/-- `Screenshots.batchAndWait` (src/src/workflows/client.ts, lines 584-608).
Source defaults: `pollInterval = 2000`, `timeout = 300000`. -/
def batchAndWait (env : PollEnv BatchScreenshotJob) (pollInterval timeout fuel : Nat) :
    Option (Except JsError BatchScreenshotJob × PollStats) :=
  match env.submit with
  | .error e => some (.error e, ⟨1, 0, 0⟩)
  | .ok _ => batchAndWaitLoop env pollInterval timeout fuel env.submitDur 0 0

end Screenshots

/-! The four loop bodies above differ only in their terminal-status test,
failure test, failure message and timeout message.  `genLoop` abstracts that
shape so the loop lemmas are proved once; each concrete loop is proved equal
to its `genLoop` instance. -/

/-- The parameters in which the source's poll-loop bodies differ. -/
structure PollSpec (σ : Type) where
  isTerminal : σ → Bool
  isFailed : σ → Bool
  failText : σ → String
  timeoutText : String

variable {σ : Type}

/-- The shared poll-loop shape, fuel-indexed. -/
def genLoop (spec : PollSpec σ) (env : PollEnv σ) (pollInterval timeout : Nat) :
    Nat → Nat → Nat → Nat → Option (Except JsError σ × PollStats)
  | 0, _, _, _ => none
  | fuel + 1, elapsed, n, sleeps =>
    if elapsed < timeout then
      match env.fetch n with
      | .error e => some (.error e, ⟨1, n + 1, sleeps⟩)
      | .ok s =>
        if spec.isTerminal s then
          if spec.isFailed s then
            some (.error (.err (spec.failText s)), ⟨1, n + 1, sleeps⟩)
          else
            some (.ok s, ⟨1, n + 1, sleeps⟩)
        else
          genLoop spec env pollInterval timeout fuel
            (elapsed + env.fetchDur n + pollInterval) (n + 1) (sleeps + 1)
    else
      some (.error (.err spec.timeoutText), ⟨1, n, sleeps⟩)

/-- The screenshot wait's loop parameters. -/
def screenshotSpec : PollSpec Screenshot :=
  ⟨fun s => s.status == "completed" || s.status == "failed",
   fun s => s.status == "failed",
   fun s => orFalsy s.error "Screenshot failed",
   "Screenshot timed out"⟩

/-- The extraction wait's loop parameters. -/
def extractionSpec : PollSpec Extraction :=
  ⟨fun s => s.status == "completed" || s.status == "failed",
   fun s => s.status == "failed",
   fun s => orFalsy s.error "Extraction failed",
   "Extraction timed out"⟩

/-- The workflow-run wait's loop parameters. -/
def runSpec : PollSpec WorkflowRun :=
  ⟨fun s => s.status == "completed" || s.status == "failed" || s.status == "cancelled",
   fun s => s.status == "failed",
   fun s => orFalsy s.error "Workflow execution failed",
   "Workflow execution timed out"⟩

/-- The webdata batch waits' loop parameters: no failure branch. -/
def batchJobSpec : PollSpec BatchJob :=
  ⟨fun s => s.status == "completed" || s.status == "failed" || s.status == "cancelled",
   fun _ => false,
   fun _ => "",
   "Batch job timed out"⟩

/-- The screenshots-client batch wait's loop parameters: no failure branch. -/
def batchScreenshotJobSpec : PollSpec BatchScreenshotJob :=
  ⟨fun s => s.status == "completed" || s.status == "failed" || s.status == "cancelled",
   fun _ => false,
   fun _ => "",
   "Batch job timed out"⟩


/-- `Date.now() - startTime` at the top-of-loop check of iteration `m`
(iteration 0 is entered right after the submit call). -/
def elapsedAt (env : PollEnv σ) (pollInterval : Nat) : Nat → Nat
  | 0 => env.submitDur
  | m + 1 => elapsedAt env pollInterval m + env.fetchDur m + pollInterval

/-! ## Response hydration

The `convert...Dates` helpers turn wire-format date strings into native
dates in place.  The recurring TypeScript patterns are

  `if (typeof x.f === "string") x.f = new Date(x.f);`           (required field)
  `if (x.f && typeof x.f === "string") x.f = new Date(x.f);`    (optional field)

`new Date(s)` is modelled by an explicit `parse : String → Int` giving the
native date's milliseconds; the result is a `.date` (a JavaScript `Date`
object, hence non-string and truthy) whatever the string was. -/

/-- `if (typeof x === "string") x = new Date(x)` on a required date field. -/
def convertReqDate (parse : String → Int) : JsDate → JsDate
  | .str v => .date (parse v)
  | x => x

/-- `if (x && typeof x === "string") x = new Date(x)` on an optional date
field; `null`, `undefined` and the empty string are falsy and left alone. -/
def convertOptDate (parse : String → Int) : Option JsDate → Option JsDate
  | some (.str v) => if v == "" then some (.str v) else some (.date (parse v))
  | x => x

namespace Webdata

/-- `Webdata.convertScreenshotDates` (src/unnamed/part_001, lines 696-704):
`createdAt` is converted when it is a string, `completedAt` when it is
present (truthy) and a string. -/
def convertScreenshotDates (parse : String → Int) (screenshot : Screenshot) : Screenshot :=
  { screenshot with
      createdAt := convertReqDate parse screenshot.createdAt,
      completedAt := convertOptDate parse screenshot.completedAt }

/-- `Webdata.convertExtractionDates` (src/unnamed/part_001, lines 706-714). -/
def convertExtractionDates (parse : String → Int) (extraction : Extraction) : Extraction :=
  { extraction with
      createdAt := convertReqDate parse extraction.createdAt,
      completedAt := convertOptDate parse extraction.completedAt }

/-- `Webdata.convertBatchJobDates` (src/unnamed/part_001, lines 742-753). -/
def convertBatchJobDates (parse : String → Int) (job : BatchJob) : BatchJob :=
  { job with
      createdAt := convertReqDate parse job.createdAt,
      startedAt := convertOptDate parse job.startedAt,
      completedAt := convertOptDate parse job.completedAt }

end Webdata

namespace Workflows

/-- `Workflows.convertRunDates` (src/src/workflows/client.ts, lines 313-324). -/
def convertRunDates (parse : String → Int) (run : WorkflowRun) : WorkflowRun :=
  { run with
      createdAt := convertReqDate parse run.createdAt,
      startedAt := convertOptDate parse run.startedAt,
      completedAt := convertOptDate parse run.completedAt }

end Workflows

/-! ## HTTP transport (`HttpClient`, src/src/mail/types.ts, lines 1087-1179)

`fetch` responses are modelled by `HttpResponse`: the numeric status, the
status text, and the result of `response.json()` (`none` when the body does
not parse as JSON).  JSON values are `Json`; JavaScript truthiness and
string conversion are modelled on them where the source relies on them. -/

/-- A JSON value as produced by `response.json()` / consumed by
`JSON.stringify`. -/
inductive Json where
  | null
  | bool (b : Bool)
  | num (n : Int)
  | str (s : String)
  | arr (items : List Json)
  | obj (fields : List (String × Json))

/-- Property access `j.key` on a parsed JSON value: a lookup on objects,
`undefined` (here `none`) on everything else. -/
def Json.getField : Json → String → Option Json
  | .obj fields, key => fields.lookup key
  | _, _ => none

/-- JavaScript truthiness of a JSON value. -/
def jsTruthy : Json → Bool
  | .null => false
  | .bool b => b
  | .num n => n != 0
  | .str s => s != ""
  | .arr _ => true
  | .obj _ => true

mutual

/-- JavaScript `String(x)` on a JSON value (`new Error(x)` stringifies its
argument this way). -/
def jsToString : Json → String
  | .null => "null"
  | .bool b => if b then "true" else "false"
  | .num n => toString n
  | .str s => s
  | .arr items => jsToStringList items
  | .obj _ => "[object Object]"

/-- Array `toString`: elements joined by commas. -/
def jsToStringList : List Json → String
  | [] => ""
  | [x] => jsToString x
  | x :: xs => jsToString x ++ "," ++ jsToStringList xs

end

mutual

/-- `JSON.stringify` on a JSON value (string escaping elided). -/
def Json.stringify : Json → String
  | .null => "null"
  | .bool b => if b then "true" else "false"
  | .num n => toString n
  | .str s => "\"" ++ s ++ "\""
  | .arr items => "[" ++ stringifyList items ++ "]"
  | .obj fields => "\x7b" ++ stringifyFields fields ++ "\x7d"

/-- Comma-joined serialization of array elements. -/
def stringifyList : List Json → String
  | [] => ""
  | [x] => Json.stringify x
  | x :: xs => Json.stringify x ++ "," ++ stringifyList xs

/-- Comma-joined serialization of object fields. -/
def stringifyFields : List (String × Json) → String
  | [] => ""
  | [(k, v)] => "\"" ++ k ++ "\":" ++ Json.stringify v
  | (k, v) :: fs => "\"" ++ k ++ "\":" ++ Json.stringify v ++ "," ++ stringifyFields fs

end

/-- A `fetch` `Response` as consumed by `HttpClient`: `status`,
`statusText`, and the result of `response.json()` (`none` when the body is
not parseable JSON). -/
structure HttpResponse where
  status : Nat
  statusText : String
  jsonBody : Option Json

/-- `response.ok`: status in the inclusive range 200-299. -/
def HttpResponse.isOk (r : HttpResponse) : Bool :=
  decide (200 ≤ r.status) && decide (r.status < 300)

namespace HttpClient

/-- `HttpClient.getHeaders` (src/src/mail/types.ts, lines 1096-1104):
`Authorization` always, `Content-Type: application/json` only when
`includeContentType` is set. -/
def getHeaders (apiKey : String) (includeContentType : Bool) : List (String × String) :=
  let headers := [("Authorization", "Bearer " ++ apiKey)]
  if includeContentType then headers ++ [("Content-Type", "application/json")] else headers

/-- The request as handed to `fetch` by `HttpClient.request`
(src/src/mail/types.ts, lines 1106-1116): URL, method, headers, serialized
body. -/
structure RequestInit where
  url : String
  method : String
  headers : List (String × String)
  body : Option String
deriving DecidableEq, Repr

/-- Construction of the `fetch` arguments in `HttpClient.request`:
`bodyString` is `undefined` exactly when `body` is, `hasBody` couples the
`Content-Type` header to the presence of a body. -/
def buildRequest (apiKey baseUrl method path : String) (body : Option Json) : RequestInit :=
  let url := baseUrl ++ path
  let bodyString := body.map Json.stringify
  let hasBody := bodyString.isSome
  ⟨url, method, getHeaders apiKey hasBody, bodyString⟩

/-- The classified error built by `HttpClient.handleErrorResponse`
(src/src/mail/types.ts, lines 1132-1149): an `Error` extended with
`statusCode`, `code` and the raw parsed body. -/
structure ApiError where
  message : String
  statusCode : Nat
  code : Json
  response : Json

/-- `HttpClient.handleErrorResponse`: parse the error payload, falling back
to `{ message: response.statusText }`; the message is
`errorBody?.message || "HTTP <status>"`, the code is
`errorBody?.code ?? ""`. -/
def handleErrorResponse (response : HttpResponse) : ApiError :=
  let errorBody : Json :=
    match response.jsonBody with
    | some body => body
    | none => .obj [("message", .str response.statusText)]
  let message : String :=
    match errorBody.getField "message" with
    | some v => if jsTruthy v then jsToString v else "HTTP " ++ toString response.status
    | none => "HTTP " ++ toString response.status
  let code : Json :=
    match errorBody.getField "code" with
    | some .null => .str ""
    | some v => v
    | none => .str ""
  ⟨message, response.status, code, errorBody⟩

/-- What one `fetch` call does: either the promise rejects (the request
never produced a response) or it resolves to a response. -/
inductive FetchResult where
  | rejected (cause : String)
  | resolved (response : HttpResponse)

/-- A value caught by the `catch` in `HttpClient.request`: the classified
error thrown by `handleErrorResponse`, the `fetch` rejection, or the
rejection of `response.json()` on a 2xx response. -/
inductive CaughtValue where
  | api (e : ApiError)
  | fetchFailure (cause : String)
  | jsonFailure

/-- `"statusCode" in error`: only the classified error carries the
`statusCode` property. -/
def CaughtValue.hasStatusCode : CaughtValue → Bool
  | .api _ => true
  | .fetchFailure _ => false
  | .jsonFailure => false

/-- The `try` block of `HttpClient.request`: issue the fetch, throw the
classified error on a non-2xx response, otherwise parse the body. -/
def tryBlock (net : FetchResult) : Except CaughtValue Json :=
  match net with
  | .rejected cause => .error (.fetchFailure cause)
  | .resolved response =>
    if !response.isOk then
      .error (.api (handleErrorResponse response))
    else
      match response.jsonBody with
      | some data => .ok data
      | none => .error .jsonFailure

/-- The error surfaced by `HttpClient.request`: the classified error
re-thrown as-is, or `createError("Network error", cause)` wrapping whatever
else was caught. -/
inductive RequestError where
  | api (e : ApiError)
  | network (message : String) (cause : CaughtValue)

/-- `"statusCode" in error` on the surfaced error. -/
def RequestError.hasStatusCode : RequestError → Bool
  | .api _ => true
  | .network _ _ => false

/-- The `catch` of `HttpClient.request`: re-throw errors that carry a
`statusCode`, wrap everything else in `createError("Network error", error)`. -/
def classifyCaught (e : CaughtValue) : RequestError :=
  if e.hasStatusCode then
    match e with
    | .api a => .api a
    | other => .network "Network error" other
  else
    .network "Network error" e

/-- `HttpClient.request` (src/src/mail/types.ts, lines 1106-1130), given the
behavior of the single `fetch` it performs. -/
def request (net : FetchResult) : Except RequestError Json :=
  match tryBlock net with
  | .ok data => .ok data
  | .error e => .error (classifyCaught e)

end HttpClient

/-! ## Concrete fixtures used by examples, witnesses and counterexamples -/

/-- A processing snapshot used in sanity examples. -/
def sanityShot : Screenshot :=
  ⟨"s1", "processing", none, none, .str "2024-01-01", none⟩

/-- The concrete 404 response used to witness the C7 and C8 theorems'
hypotheses. -/
def notFoundResponse : HttpResponse :=
  ⟨404, "Not Found", some (.obj [("message", .str "run not found"), ("code", .str "not_found")])⟩

/-- A screenshot stuck in `processing`, observed by the C1 runs. -/
def processingShot : Screenshot := ⟨"shot-a", "processing", none, none, .str "t0", none⟩

/-- A screenshot stuck in `pending`, observed by the C1 runs. -/
def pendingShot : Screenshot := ⟨"shot-b", "pending", none, none, .str "t0", none⟩

/-- A C1 run: handle `handle-A`, every fetch sees `processingShot`. -/
def timeoutEnvA : PollEnv Screenshot := ⟨.ok "handle-A", 0, fun _ => .ok processingShot, fun _ => 0⟩

/-- A C1 run: handle `handle-B`, every fetch sees `pendingShot`. -/
def timeoutEnvB : PollEnv Screenshot := ⟨.ok "handle-B", 0, fun _ => .ok pendingShot, fun _ => 0⟩

/-- A failed screenshot whose `error` field is the empty string. -/
def failedShotEmptyError : Screenshot := ⟨"shot-c", "failed", none, some "", .str "t0", none⟩

/-- A run whose first fetch sees `failedShotEmptyError`. -/
def failedEnvEmptyError : PollEnv Screenshot :=
  ⟨.ok "handle-C", 0, fun _ => .ok failedShotEmptyError, fun _ => 0⟩

/-- A screenshot already `completed` on the first fetch. -/
def completedShot : Screenshot := ⟨"shot-e", "completed", some "img", none, .str "t0", none⟩

/-- A batch job whose terminal status is `failed`. -/
def failedBatchJob : BatchJob := ⟨"job-1", "failed", 3, 1, 2, .str "t0", none, none⟩

/-- A batch job still `processing`. -/
def processingBatchJob : BatchJob := ⟨"job-1", "processing", 3, 0, 0, .str "t0", none, none⟩


/-! ## Loop correspondence and generic loop lemmas -/

theorem screenshotAndWaitLoop_eq_genLoop (env : PollEnv Screenshot) (pollInterval timeout : Nat) :
    ∀ fuel elapsed n sleeps,
      Webdata.screenshotAndWaitLoop env pollInterval timeout fuel elapsed n sleeps
        = genLoop screenshotSpec env pollInterval timeout fuel elapsed n sleeps := by
  intro fuel
  induction fuel with
  | zero => intro _ _ _; rfl
  | succ f ih =>
    intro elapsed n sleeps
    by_cases hd : elapsed < timeout
    · cases hf : env.fetch n with
      | error e => simp only [Webdata.screenshotAndWaitLoop, genLoop, if_pos hd, hf]
      | ok s => simp only [Webdata.screenshotAndWaitLoop, genLoop, if_pos hd, hf, ih, screenshotSpec]
    · simp only [Webdata.screenshotAndWaitLoop, genLoop, if_neg hd, screenshotSpec]

theorem extractAndWaitLoop_eq_genLoop (env : PollEnv Extraction) (pollInterval timeout : Nat) :
    ∀ fuel elapsed n sleeps,
      Webdata.extractAndWaitLoop env pollInterval timeout fuel elapsed n sleeps
        = genLoop extractionSpec env pollInterval timeout fuel elapsed n sleeps := by
  intro fuel
  induction fuel with
  | zero => intro _ _ _; rfl
  | succ f ih =>
    intro elapsed n sleeps
    by_cases hd : elapsed < timeout
    · cases hf : env.fetch n with
      | error e => simp only [Webdata.extractAndWaitLoop, genLoop, if_pos hd, hf]
      | ok s => simp only [Webdata.extractAndWaitLoop, genLoop, if_pos hd, hf, ih, extractionSpec]
    · simp only [Webdata.extractAndWaitLoop, genLoop, if_neg hd, extractionSpec]

theorem runAndWaitLoop_eq_genLoop (env : PollEnv WorkflowRun) (pollInterval timeout : Nat) :
    ∀ fuel elapsed n sleeps,
      Workflows.runAndWaitLoop env pollInterval timeout fuel elapsed n sleeps
        = genLoop runSpec env pollInterval timeout fuel elapsed n sleeps := by
  intro fuel
  induction fuel with
  | zero => intro _ _ _; rfl
  | succ f ih =>
    intro elapsed n sleeps
    by_cases hd : elapsed < timeout
    · cases hf : env.fetch n with
      | error e => simp only [Workflows.runAndWaitLoop, genLoop, if_pos hd, hf]
      | ok s => simp only [Workflows.runAndWaitLoop, genLoop, if_pos hd, hf, ih, runSpec]
    · simp only [Workflows.runAndWaitLoop, genLoop, if_neg hd, runSpec]

theorem batchJobAndWaitLoop_eq_genLoop (env : PollEnv BatchJob) (pollInterval timeout : Nat) :
    ∀ fuel elapsed n sleeps,
      Webdata.batchJobAndWaitLoop env pollInterval timeout fuel elapsed n sleeps
        = genLoop batchJobSpec env pollInterval timeout fuel elapsed n sleeps := by
  intro fuel
  induction fuel with
  | zero => intro _ _ _; rfl
  | succ f ih =>
    intro elapsed n sleeps
    by_cases hd : elapsed < timeout
    · cases hf : env.fetch n with
      | error e => simp only [Webdata.batchJobAndWaitLoop, genLoop, if_pos hd, hf]
      | ok s => simp only [Webdata.batchJobAndWaitLoop, genLoop, if_pos hd, hf, ih, batchJobSpec, Bool.false_eq_true, if_false]
    · simp only [Webdata.batchJobAndWaitLoop, genLoop, if_neg hd, batchJobSpec]

theorem batchAndWaitLoop_eq_genLoop (env : PollEnv BatchScreenshotJob) (pollInterval timeout : Nat) :
    ∀ fuel elapsed n sleeps,
      Screenshots.batchAndWaitLoop env pollInterval timeout fuel elapsed n sleeps
        = genLoop batchScreenshotJobSpec env pollInterval timeout fuel elapsed n sleeps := by
  intro fuel
  induction fuel with
  | zero => intro _ _ _; rfl
  | succ f ih =>
    intro elapsed n sleeps
    by_cases hd : elapsed < timeout
    · cases hf : env.fetch n with
      | error e => simp only [Screenshots.batchAndWaitLoop, genLoop, if_pos hd, hf]
      | ok s => simp only [Screenshots.batchAndWaitLoop, genLoop, if_pos hd, hf, ih, batchScreenshotJobSpec, Bool.false_eq_true, if_false]
    · simp only [Screenshots.batchAndWaitLoop, genLoop, if_neg hd, batchScreenshotJobSpec]

theorem genLoop_deadline (spec : PollSpec σ) (env : PollEnv σ) (pollInterval timeout : Nat)
    (fuel elapsed n sleeps : Nat) (hd : ¬ elapsed < timeout) :
    genLoop spec env pollInterval timeout (fuel + 1) elapsed n sleeps
      = some (.error (.err spec.timeoutText), ⟨1, n, sleeps⟩) := by
  simp only [genLoop, if_neg hd]

theorem genLoop_terminal (spec : PollSpec σ) (env : PollEnv σ) (pollInterval timeout : Nat)
    (fuel elapsed n sleeps : Nat) {s : σ} (hd : elapsed < timeout)
    (hf : env.fetch n = .ok s) (ht : spec.isTerminal s = true) :
    genLoop spec env pollInterval timeout (fuel + 1) elapsed n sleeps
      = some (if spec.isFailed s then .error (.err (spec.failText s)) else .ok s,
              ⟨1, n + 1, sleeps⟩) := by
  cases hfail : spec.isFailed s <;>
    simp only [genLoop, if_pos hd, hf, ht, hfail, if_true, if_false, Bool.false_eq_true,
      Bool.true_eq_false]

theorem genLoop_step (spec : PollSpec σ) (env : PollEnv σ) (pollInterval timeout : Nat)
    (fuel elapsed n sleeps : Nat) {s : σ} (hd : elapsed < timeout)
    (hf : env.fetch n = .ok s) (ht : spec.isTerminal s = false) :
    genLoop spec env pollInterval timeout (fuel + 1) elapsed n sleeps
      = genLoop spec env pollInterval timeout fuel
          (elapsed + env.fetchDur n + pollInterval) (n + 1) (sleeps + 1) := by
  simp only [genLoop, if_pos hd, hf, ht, Bool.false_eq_true, if_false]

theorem genLoop_fetch_error (spec : PollSpec σ) (env : PollEnv σ) (pollInterval timeout : Nat)
    (fuel elapsed n sleeps : Nat) {e : JsError} (hd : elapsed < timeout)
    (hf : env.fetch n = .error e) :
    genLoop spec env pollInterval timeout (fuel + 1) elapsed n sleeps
      = some (.error e, ⟨1, n + 1, sleeps⟩) := by
  simp only [genLoop, if_pos hd, hf]

/-- If every fetch yields a non-terminal snapshot, the only outcome the loop
can produce is the timeout error. -/
theorem genLoop_timeout_of_nonterminal (spec : PollSpec σ) (env : PollEnv σ)
    (pollInterval timeout : Nat)
    (hnt : ∀ m, ∃ s, env.fetch m = .ok s ∧ spec.isTerminal s = false) :
    ∀ fuel elapsed n sleeps r,
      genLoop spec env pollInterval timeout fuel elapsed n sleeps = some r →
        r.1 = .error (.err spec.timeoutText) := by
  intro fuel
  induction fuel with
  | zero =>
    intro e n k r h
    simp only [genLoop] at h
    exact Option.noConfusion h
  | succ f ih =>
    intro e n k r h
    by_cases hd : e < timeout
    · obtain ⟨s, hs, hterm⟩ := hnt n
      rw [genLoop_step spec env pollInterval timeout f e n k hd hs hterm] at h
      exact ih _ _ _ _ h
    · rw [genLoop_deadline spec env pollInterval timeout f e n k hd] at h
      cases h
      rfl

/-- Whatever the loop returns records exactly one submit call. -/
theorem genLoop_submits_eq_one (spec : PollSpec σ) (env : PollEnv σ)
    (pollInterval timeout : Nat) :
    ∀ fuel elapsed n sleeps r,
      genLoop spec env pollInterval timeout fuel elapsed n sleeps = some r →
        r.2.submits = 1 := by
  intro fuel
  induction fuel with
  | zero =>
    intro e n k r h
    simp only [genLoop] at h
    exact Option.noConfusion h
  | succ f ih =>
    intro e n k r h
    by_cases hd : e < timeout
    · cases hfetch : env.fetch n with
      | error err =>
        rw [genLoop_fetch_error spec env pollInterval timeout f e n k hd hfetch] at h
        cases h; rfl
      | ok s =>
        cases hterm : spec.isTerminal s with
        | true =>
          rw [genLoop_terminal spec env pollInterval timeout f e n k hd hfetch hterm] at h
          cases h; rfl
        | false =>
          rw [genLoop_step spec env pollInterval timeout f e n k hd hfetch hterm] at h
          exact ih _ _ _ _ h
    · rw [genLoop_deadline spec env pollInterval timeout f e n k hd] at h
      cases h; rfl

/-- With a timeout shorter than the poll interval and only non-terminal
snapshots, the loop times out after at most one more fetch than the `n` it
starts from. -/
theorem genLoop_short_timeout (spec : PollSpec σ) (env : PollEnv σ)
    (pollInterval timeout : Nat) (hti : timeout < pollInterval)
    (hnt : ∀ m, ∃ s, env.fetch m = .ok s ∧ spec.isTerminal s = false) :
    ∀ fuel elapsed n sleeps r,
      genLoop spec env pollInterval timeout fuel elapsed n sleeps = some r →
        r.1 = .error (.err spec.timeoutText) ∧ r.2.fetches ≤ n + 1 := by
  intro fuel
  cases fuel with
  | zero =>
    intro e n k r h
    simp only [genLoop] at h
    exact Option.noConfusion h
  | succ f =>
    intro e n k r h
    by_cases hd : e < timeout
    · obtain ⟨s, hs, hterm⟩ := hnt n
      rw [genLoop_step spec env pollInterval timeout f e n k hd hs hterm] at h
      cases f with
      | zero =>
        simp only [genLoop] at h
        exact Option.noConfusion h
      | succ f2 =>
        have hd2 : ¬ e + env.fetchDur n + pollInterval < timeout := by omega
        rw [genLoop_deadline spec env pollInterval timeout f2 _ _ _ hd2] at h
        cases h
        exact ⟨rfl, Nat.le_refl _⟩
    · rw [genLoop_deadline spec env pollInterval timeout f e n k hd] at h
      cases h
      exact ⟨rfl, Nat.le_succ n⟩

/-- Running the loop past `m` iterations whose fetches are all non-terminal
and whose deadline checks all pass. -/
theorem genLoop_advance (spec : PollSpec σ) (env : PollEnv σ)
    (pollInterval timeout : Nat) :
    ∀ m, (∀ j, j < m → ∃ s, env.fetch j = .ok s ∧ spec.isTerminal s = false) →
      (∀ j, j < m → elapsedAt env pollInterval j < timeout) →
      ∀ fuel,
        genLoop spec env pollInterval timeout (m + fuel) (elapsedAt env pollInterval 0) 0 0
          = genLoop spec env pollInterval timeout fuel (elapsedAt env pollInterval m) m m := by
  intro m
  induction m with
  | zero => intro _ _ fuel; rw [Nat.zero_add]
  | succ p ih =>
    intro hpre hdl fuel
    have h1 := ih (fun j hj => hpre j (Nat.lt_succ_of_lt hj))
      (fun j hj => hdl j (Nat.lt_succ_of_lt hj)) (fuel + 1)
    have e1 : p + 1 + fuel = p + (fuel + 1) := by omega
    rw [e1, h1]
    obtain ⟨s, hs, hterm⟩ := hpre p (Nat.lt_succ_self p)
    rw [genLoop_step spec env pollInterval timeout fuel _ _ _
      (hdl p (Nat.lt_succ_self p)) hs hterm]
    rfl

theorem convertReqDate_idem (parse : String → Int) (x : JsDate) :
    convertReqDate parse (convertReqDate parse x) = convertReqDate parse x := by
  cases x <;> rfl

theorem convertOptDate_idem (parse : String → Int) (x : Option JsDate) :
    convertOptDate parse (convertOptDate parse x) = convertOptDate parse x := by
  match x with
  | none => rfl
  | some (.date m) => rfl
  | some (.str v) =>
    by_cases h : (v == "") = true
    · simp only [convertOptDate, if_pos h]
    · simp only [convertOptDate, if_neg h]

section Sanity

example :
    Webdata.screenshotAndWait
      ⟨.ok "s1", 0, fun _ => .ok sanityShot, fun _ => 0⟩ 1 3 9
      = some (.error (.err "Screenshot timed out"), ⟨1, 3, 3⟩) := by decide

example :
    Webdata.screenshotAndWait
      ⟨.ok "s1", 0, fun _ => .ok { sanityShot with status := "completed" }, fun _ => 0⟩ 1 3 9
      = some (.ok { sanityShot with status := "completed" }, ⟨1, 1, 0⟩) := by decide

example :
    Webdata.screenshotAndWait
      ⟨.ok "s1", 0, fun _ => .ok { sanityShot with status := "failed" }, fun _ => 0⟩ 1 3 9
      = some (.error (.err "Screenshot failed"), ⟨1, 1, 0⟩) := by decide

end Sanity

/-! ## Claims -/

/-- Claim C6: every transport request's headers include the bearer
Authorization token, and include `Content-Type: application/json` exactly
when a request body is supplied. -/
theorem transport_headers_bearer_always_content_type_iff_body
    (apiKey baseUrl method path : String) (body : Option Json) :
    ("Authorization", "Bearer " ++ apiKey)
        ∈ (HttpClient.buildRequest apiKey baseUrl method path body).headers
    ∧ ((("Content-Type", "application/json")
          ∈ (HttpClient.buildRequest apiKey baseUrl method path body).headers)
        ↔ body.isSome = true) := by
  cases body <;>
    simp [HttpClient.buildRequest, HttpClient.getHeaders]

/-- Claim C7, counterexample: a 500 response with an unparsable body and an
empty status text (what `fetch` reports for any HTTP/2 response) produces
the message `HTTP 500`, not the status text `""` — the `||` fallback fires
on the empty string. -/
theorem non2xx_unparsable_empty_statusText_message_not_statusText :
    (HttpClient.handleErrorResponse ⟨500, "", none⟩).message = "HTTP 500"
    ∧ ("HTTP 500" : String) ≠ "" := by
  exact ⟨rfl, by decide⟩

/-- Claim C7 (amended): on a non-2xx response whose body is unparsable the
classified error carries the numeric status and its message is the HTTP
status text when that text is nonempty (`HTTP <status>` otherwise); when the
body parses as JSON, the error carries the numeric status, its message is
the payload's `message` whenever that is a nonempty string, and the
payload's string `code` is carried verbatim. -/
theorem non2xx_error_classification
    (response : HttpResponse) :
    (response.jsonBody = none →
      (HttpClient.handleErrorResponse response).statusCode = response.status
      ∧ (HttpClient.handleErrorResponse response).message
          = (if response.statusText = "" then "HTTP " ++ toString response.status
             else response.statusText))
    ∧ (∀ body, response.jsonBody = some body →
        (HttpClient.handleErrorResponse response).statusCode = response.status
        ∧ (∀ m, body.getField "message" = some (.str m) → m ≠ "" →
            (HttpClient.handleErrorResponse response).message = m)
        ∧ (∀ c, body.getField "code" = some (.str c) →
            (HttpClient.handleErrorResponse response).code = .str c)) := by
  constructor
  · intro hnone
    refine ⟨by simp [HttpClient.handleErrorResponse], ?_⟩
    by_cases hst : response.statusText = ""
    · simp [HttpClient.handleErrorResponse, hnone, Json.getField, List.lookup, jsTruthy,
        jsToString, hst]
    · simp [HttpClient.handleErrorResponse, hnone, Json.getField, List.lookup, jsTruthy,
        jsToString, hst]
  · intro body hsome
    refine ⟨by simp [HttpClient.handleErrorResponse], ?_, ?_⟩
    · intro m hm hm0
      simp [HttpClient.handleErrorResponse, hsome, hm, jsTruthy, jsToString, hm0]
    · intro c hc
      simp [HttpClient.handleErrorResponse, hsome, hc]

/-- Witness for the C7 theorem at a concrete 404 response carrying a JSON
payload, and at a concrete 502 response with an unparsable body. -/
theorem non2xx_error_classification_witness :
    (HttpClient.handleErrorResponse notFoundResponse).statusCode = 404
    ∧ (HttpClient.handleErrorResponse notFoundResponse).message = "run not found"
    ∧ (HttpClient.handleErrorResponse notFoundResponse).code = .str "not_found"
    ∧ (HttpClient.handleErrorResponse ⟨502, "Bad Gateway", none⟩).message = "Bad Gateway" := by
  have h1 := (non2xx_error_classification notFoundResponse).2
    (.obj [("message", .str "run not found"), ("code", .str "not_found")]) rfl
  have h2 := (non2xx_error_classification ⟨502, "Bad Gateway", none⟩).1 rfl
  refine ⟨h1.1, h1.2.1 "run not found" rfl (by decide), h1.2.2 "not_found" rfl, ?_⟩
  rw [h2.2]
  decide

/-- Claim C8: a rejected `fetch` surfaces as `createError("Network error",
cause)` wrapping the underlying cause; that error carries no `statusCode`
while every classified error does; and a classified error from a non-2xx
response is re-thrown by the `catch` unmodified. -/
theorem network_error_distinct_from_classified :
    (∀ cause, HttpClient.request (.rejected cause)
        = .error (.network "Network error" (.fetchFailure cause)))
    ∧ (∀ m c, (HttpClient.RequestError.network m c).hasStatusCode = false)
    ∧ (∀ e, (HttpClient.RequestError.api e).hasStatusCode = true)
    ∧ (∀ response, response.isOk = false →
        HttpClient.request (.resolved response)
          = .error (.api (HttpClient.handleErrorResponse response))) := by
  refine ⟨fun _ => rfl, fun _ _ => rfl, fun _ => rfl, ?_⟩
  intro response h
  simp [HttpClient.request, HttpClient.tryBlock, h, HttpClient.classifyCaught,
    HttpClient.CaughtValue.hasStatusCode]

/-- Witness for the C8 theorem at the concrete 404 response. -/
theorem network_error_distinct_from_classified_witness :
    notFoundResponse.isOk = false
    ∧ HttpClient.request (.resolved notFoundResponse)
        = .error (.api (HttpClient.handleErrorResponse notFoundResponse)) := by
  refine ⟨by decide, ?_⟩
  exact network_error_distinct_from_classified.2.2.2 notFoundResponse (by decide)

/-- Claim C9: the date-hydration helpers are idempotent: they only convert
fields that are currently strings, leave already-native values untouched,
and are total on absent optional fields, so a second pass changes nothing. -/
theorem hydration_idempotent (parse : String → Int) (s : Screenshot)
    (e : Extraction) (b : BatchJob) (r : WorkflowRun) :
    Webdata.convertScreenshotDates parse (Webdata.convertScreenshotDates parse s)
        = Webdata.convertScreenshotDates parse s
    ∧ Webdata.convertExtractionDates parse (Webdata.convertExtractionDates parse e)
        = Webdata.convertExtractionDates parse e
    ∧ Webdata.convertBatchJobDates parse (Webdata.convertBatchJobDates parse b)
        = Webdata.convertBatchJobDates parse b
    ∧ Workflows.convertRunDates parse (Workflows.convertRunDates parse r)
        = Workflows.convertRunDates parse r := by
  refine ⟨?_, ?_, ?_, ?_⟩ <;>
    simp [Webdata.convertScreenshotDates, Webdata.convertExtractionDates,
      Webdata.convertBatchJobDates, Workflows.convertRunDates,
      convertReqDate_idem, convertOptDate_idem]

/-- Claim C1, counterexample: two timed-out runs with different handles and
different last observed snapshots throw the identical error value
`Error("Screenshot timed out")` — a bare message — so the thrown error
carries neither the handle nor the last observed snapshot. -/
theorem timeout_error_carries_no_snapshot_counterexample :
    Webdata.screenshotAndWait timeoutEnvA 1 2 9
        = some (.error (.err "Screenshot timed out"), ⟨1, 2, 2⟩)
    ∧ Webdata.screenshotAndWait timeoutEnvB 1 2 9
        = some (.error (.err "Screenshot timed out"), ⟨1, 2, 2⟩)
    ∧ timeoutEnvA.submit ≠ timeoutEnvB.submit
    ∧ timeoutEnvA.fetch 1 ≠ timeoutEnvB.fetch 1 := by
  refine ⟨by decide, by decide, by decide, by decide⟩

/-- Claim C1 (amended): when the deadline expires while every observed
snapshot is non-terminal, each single-operation wait throws a fixed
`Error("<operation> timed out")`; the thrown value is the same for every
run, so it carries neither the handle nor the last observed snapshot. -/
theorem timeout_raises_fixed_timeout_error :
    (∀ (env : PollEnv Screenshot) pollInterval timeout fuel h r,
      env.submit = .ok h →
      (∀ m, ∃ s, env.fetch m = .ok s
        ∧ (s.status == "completed" || s.status == "failed") = false) →
      Webdata.screenshotAndWait env pollInterval timeout fuel = some r →
        r.1 = .error (.err "Screenshot timed out"))
    ∧ (∀ (env : PollEnv Extraction) pollInterval timeout fuel h r,
      env.submit = .ok h →
      (∀ m, ∃ s, env.fetch m = .ok s
        ∧ (s.status == "completed" || s.status == "failed") = false) →
      Webdata.extractAndWait env pollInterval timeout fuel = some r →
        r.1 = .error (.err "Extraction timed out"))
    ∧ (∀ (env : PollEnv WorkflowRun) pollInterval timeout fuel h r,
      env.submit = .ok h →
      (∀ m, ∃ s, env.fetch m = .ok s
        ∧ (s.status == "completed" || s.status == "failed"
            || s.status == "cancelled") = false) →
      Workflows.runAndWait env pollInterval timeout fuel = some r →
        r.1 = .error (.err "Workflow execution timed out")) := by
  refine ⟨?_, ?_, ?_⟩
  · intro env i t fuel h r hsub hnt hrun
    simp only [Webdata.screenshotAndWait, hsub, screenshotAndWaitLoop_eq_genLoop] at hrun
    exact genLoop_timeout_of_nonterminal screenshotSpec env i t hnt fuel env.submitDur 0 0 r hrun
  · intro env i t fuel h r hsub hnt hrun
    simp only [Webdata.extractAndWait, hsub, extractAndWaitLoop_eq_genLoop] at hrun
    exact genLoop_timeout_of_nonterminal extractionSpec env i t hnt fuel env.submitDur 0 0 r hrun
  · intro env i t fuel h r hsub hnt hrun
    simp only [Workflows.runAndWait, hsub, runAndWaitLoop_eq_genLoop] at hrun
    exact genLoop_timeout_of_nonterminal runSpec env i t hnt fuel env.submitDur 0 0 r hrun

/-- Witness for the C1 theorem at the concrete run `timeoutEnvA`. -/
theorem timeout_raises_fixed_timeout_error_witness :
    ((.error (.err "Screenshot timed out"), (⟨1, 2, 2⟩ : PollStats))
        : Except JsError Screenshot × PollStats).1
      = .error (.err "Screenshot timed out") := by
  exact timeout_raises_fixed_timeout_error.1 timeoutEnvA 1 2 9 "handle-A" _ rfl
    (fun m => ⟨processingShot, rfl, rfl⟩) (by decide)

/-- Claim C2, counterexample: the snapshot's failure payload is the (empty)
error string `""`, but the thrown error's message is the fallback
`"Screenshot failed"` — `error || default` discards a falsy payload, so the
raised error does not carry the snapshot's error string. -/
theorem failed_snapshot_payload_not_carried_counterexample :
    failedShotEmptyError.error = some ""
    ∧ Webdata.screenshotAndWait failedEnvEmptyError 1000 60000 5
        = some (.error (.err "Screenshot failed"), ⟨1, 1, 0⟩)
    ∧ ("Screenshot failed" : String) ≠ "" := by
  refine ⟨rfl, by decide, by decide⟩

/-- Claim C2 (amended): when the k-th fetch (all earlier ones non-terminal,
all deadline checks passing) returns a `failed` snapshot, the wait throws
immediately — no further fetch, no further sleep — with message
`error || "<operation> failed"`: the snapshot's error string when that is
present and nonempty, the fixed default otherwise. -/
theorem failed_snapshot_raises_immediately :
    (∀ (env : PollEnv Screenshot) pollInterval timeout k fuel h s,
      env.submit = .ok h →
      (∀ j, j < k → ∃ sj, env.fetch j = .ok sj
        ∧ (sj.status == "completed" || sj.status == "failed") = false) →
      (∀ j, j ≤ k → elapsedAt env pollInterval j < timeout) →
      env.fetch k = .ok s → s.status = "failed" →
      Webdata.screenshotAndWait env pollInterval timeout (k + (fuel + 1))
        = some (.error (.err (orFalsy s.error "Screenshot failed")), ⟨1, k + 1, k⟩))
    ∧ (∀ (env : PollEnv Extraction) pollInterval timeout k fuel h s,
      env.submit = .ok h →
      (∀ j, j < k → ∃ sj, env.fetch j = .ok sj
        ∧ (sj.status == "completed" || sj.status == "failed") = false) →
      (∀ j, j ≤ k → elapsedAt env pollInterval j < timeout) →
      env.fetch k = .ok s → s.status = "failed" →
      Webdata.extractAndWait env pollInterval timeout (k + (fuel + 1))
        = some (.error (.err (orFalsy s.error "Extraction failed")), ⟨1, k + 1, k⟩))
    ∧ (∀ (env : PollEnv WorkflowRun) pollInterval timeout k fuel h s,
      env.submit = .ok h →
      (∀ j, j < k → ∃ sj, env.fetch j = .ok sj
        ∧ (sj.status == "completed" || sj.status == "failed"
            || sj.status == "cancelled") = false) →
      (∀ j, j ≤ k → elapsedAt env pollInterval j < timeout) →
      env.fetch k = .ok s → s.status = "failed" →
      Workflows.runAndWait env pollInterval timeout (k + (fuel + 1))
        = some (.error (.err (orFalsy s.error "Workflow execution failed")), ⟨1, k + 1, k⟩)) := by
  refine ⟨?_, ?_, ?_⟩
  · intro env i t k fuel h s hsub hpre hdl hk hst
    simp only [Webdata.screenshotAndWait, hsub, screenshotAndWaitLoop_eq_genLoop]
    rw [show env.submitDur = elapsedAt env i 0 from rfl,
      genLoop_advance screenshotSpec env i t k hpre (fun j hj => hdl j (Nat.le_of_lt hj)) (fuel + 1),
      genLoop_terminal screenshotSpec env i t fuel _ _ _ (hdl k (Nat.le_refl k)) hk
        (by simp [screenshotSpec, hst])]
    simp [screenshotSpec, hst]
  · intro env i t k fuel h s hsub hpre hdl hk hst
    simp only [Webdata.extractAndWait, hsub, extractAndWaitLoop_eq_genLoop]
    rw [show env.submitDur = elapsedAt env i 0 from rfl,
      genLoop_advance extractionSpec env i t k hpre (fun j hj => hdl j (Nat.le_of_lt hj)) (fuel + 1),
      genLoop_terminal extractionSpec env i t fuel _ _ _ (hdl k (Nat.le_refl k)) hk
        (by simp [extractionSpec, hst])]
    simp [extractionSpec, hst]
  · intro env i t k fuel h s hsub hpre hdl hk hst
    simp only [Workflows.runAndWait, hsub, runAndWaitLoop_eq_genLoop]
    rw [show env.submitDur = elapsedAt env i 0 from rfl,
      genLoop_advance runSpec env i t k hpre (fun j hj => hdl j (Nat.le_of_lt hj)) (fuel + 1),
      genLoop_terminal runSpec env i t fuel _ _ _ (hdl k (Nat.le_refl k)) hk
        (by simp [runSpec, hst])]
    simp [runSpec, hst]

/-- Witness for the C2 theorem: first fetch already `failed` (k = 0) with a
nonempty error string `render error`. -/
theorem failed_snapshot_raises_immediately_witness :
    Webdata.screenshotAndWait
        ⟨.ok "handle-D", 0, fun _ => .ok ⟨"d", "failed", none, some "render error", .str "t0", none⟩,
          fun _ => 0⟩ 1000 60000 (0 + (4 + 1))
      = some (.error (.err "render error"), ⟨1, 0 + 1, 0⟩) := by
  exact failed_snapshot_raises_immediately.1
    ⟨.ok "handle-D", 0, fun _ => .ok ⟨"d", "failed", none, some "render error", .str "t0", none⟩,
      fun _ => 0⟩ 1000 60000 0 4 "handle-D"
    ⟨"d", "failed", none, some "render error", .str "t0", none⟩
    rfl (fun j hj => absurd hj (Nat.not_lt_zero j))
    (fun j hj => by rw [Nat.le_zero] at hj; subst hj; decide) rfl rfl

/-- Claim C3: when the very first fetched snapshot is terminal (and the
deadline has not already expired during submission), every wait returns or
throws right away: exactly one fetch, zero inter-poll sleeps — terminality
is checked before sleeping, never after. -/
theorem first_terminal_snapshot_zero_sleeps :
    (∀ (env : PollEnv Screenshot) pollInterval timeout fuel h s,
      env.submit = .ok h → env.submitDur < timeout → env.fetch 0 = .ok s →
      (s.status == "completed" || s.status == "failed") = true →
      Webdata.screenshotAndWait env pollInterval timeout (fuel + 1)
        = some ((if s.status == "failed"
                  then .error (.err (orFalsy s.error "Screenshot failed"))
                  else .ok s), ⟨1, 1, 0⟩))
    ∧ (∀ (env : PollEnv Extraction) pollInterval timeout fuel h s,
      env.submit = .ok h → env.submitDur < timeout → env.fetch 0 = .ok s →
      (s.status == "completed" || s.status == "failed") = true →
      Webdata.extractAndWait env pollInterval timeout (fuel + 1)
        = some ((if s.status == "failed"
                  then .error (.err (orFalsy s.error "Extraction failed"))
                  else .ok s), ⟨1, 1, 0⟩))
    ∧ (∀ (env : PollEnv WorkflowRun) pollInterval timeout fuel h s,
      env.submit = .ok h → env.submitDur < timeout → env.fetch 0 = .ok s →
      (s.status == "completed" || s.status == "failed" || s.status == "cancelled") = true →
      Workflows.runAndWait env pollInterval timeout (fuel + 1)
        = some ((if s.status == "failed"
                  then .error (.err (orFalsy s.error "Workflow execution failed"))
                  else .ok s), ⟨1, 1, 0⟩))
    ∧ (∀ (env : PollEnv BatchJob) pollInterval timeout fuel h s,
      env.submit = .ok h → env.submitDur < timeout → env.fetch 0 = .ok s →
      (s.status == "completed" || s.status == "failed" || s.status == "cancelled") = true →
      Webdata.batchScreenshotsAndWait env pollInterval timeout (fuel + 1)
        = some (.ok s, ⟨1, 1, 0⟩))
    ∧ (∀ (env : PollEnv BatchJob) pollInterval timeout fuel h s,
      env.submit = .ok h → env.submitDur < timeout → env.fetch 0 = .ok s →
      (s.status == "completed" || s.status == "failed" || s.status == "cancelled") = true →
      Webdata.batchExtractionsAndWait env pollInterval timeout (fuel + 1)
        = some (.ok s, ⟨1, 1, 0⟩))
    ∧ (∀ (env : PollEnv BatchScreenshotJob) pollInterval timeout fuel h s,
      env.submit = .ok h → env.submitDur < timeout → env.fetch 0 = .ok s →
      (s.status == "completed" || s.status == "failed" || s.status == "cancelled") = true →
      Screenshots.batchAndWait env pollInterval timeout (fuel + 1)
        = some (.ok s, ⟨1, 1, 0⟩)) := by
  refine ⟨?_, ?_, ?_, ?_, ?_, ?_⟩
  · intro env i t fuel h s hsub hd hf ht
    simp only [Webdata.screenshotAndWait, hsub, screenshotAndWaitLoop_eq_genLoop]
    rw [genLoop_terminal screenshotSpec env i t fuel _ _ _ hd hf ht]
    simp [screenshotSpec]
  · intro env i t fuel h s hsub hd hf ht
    simp only [Webdata.extractAndWait, hsub, extractAndWaitLoop_eq_genLoop]
    rw [genLoop_terminal extractionSpec env i t fuel _ _ _ hd hf ht]
    simp [extractionSpec]
  · intro env i t fuel h s hsub hd hf ht
    simp only [Workflows.runAndWait, hsub, runAndWaitLoop_eq_genLoop]
    rw [genLoop_terminal runSpec env i t fuel _ _ _ hd hf ht]
    simp [runSpec]
  · intro env i t fuel h s hsub hd hf ht
    simp only [Webdata.batchScreenshotsAndWait, hsub, batchJobAndWaitLoop_eq_genLoop]
    rw [genLoop_terminal batchJobSpec env i t fuel _ _ _ hd hf ht]
    simp [batchJobSpec]
  · intro env i t fuel h s hsub hd hf ht
    simp only [Webdata.batchExtractionsAndWait, hsub, batchJobAndWaitLoop_eq_genLoop]
    rw [genLoop_terminal batchJobSpec env i t fuel _ _ _ hd hf ht]
    simp [batchJobSpec]
  · intro env i t fuel h s hsub hd hf ht
    simp only [Screenshots.batchAndWait, hsub, batchAndWaitLoop_eq_genLoop]
    rw [genLoop_terminal batchScreenshotJobSpec env i t fuel _ _ _ hd hf ht]
    simp [batchScreenshotJobSpec]

/-- Witness for the C3 theorem: first fetch already terminal, zero sleeps. -/
theorem first_terminal_snapshot_zero_sleeps_witness :
    Webdata.screenshotAndWait ⟨.ok "handle-E", 3, fun _ => .ok completedShot, fun _ => 2⟩
        1000 60000 (7 + 1)
      = some ((if completedShot.status == "failed"
                then .error (.err (orFalsy completedShot.error "Screenshot failed"))
                else .ok completedShot), ⟨1, 1, 0⟩) := by
  exact first_terminal_snapshot_zero_sleeps.1
    ⟨.ok "handle-E", 3, fun _ => .ok completedShot, fun _ => 2⟩
    1000 60000 7 "handle-E" completedShot rfl (by decide) rfl (by decide)

/-- Claim C4: with a timeout strictly smaller than the poll interval and
fetches that only ever observe non-terminal snapshots, a wait performs at
most one fetch before throwing the timeout error. -/
theorem short_timeout_at_most_one_fetch :
    (∀ (env : PollEnv Screenshot) pollInterval timeout fuel h r,
      timeout < pollInterval → env.submit = .ok h →
      (∀ m, ∃ s, env.fetch m = .ok s
        ∧ (s.status == "completed" || s.status == "failed") = false) →
      Webdata.screenshotAndWait env pollInterval timeout fuel = some r →
        r.1 = .error (.err "Screenshot timed out") ∧ r.2.fetches ≤ 1)
    ∧ (∀ (env : PollEnv Extraction) pollInterval timeout fuel h r,
      timeout < pollInterval → env.submit = .ok h →
      (∀ m, ∃ s, env.fetch m = .ok s
        ∧ (s.status == "completed" || s.status == "failed") = false) →
      Webdata.extractAndWait env pollInterval timeout fuel = some r →
        r.1 = .error (.err "Extraction timed out") ∧ r.2.fetches ≤ 1)
    ∧ (∀ (env : PollEnv WorkflowRun) pollInterval timeout fuel h r,
      timeout < pollInterval → env.submit = .ok h →
      (∀ m, ∃ s, env.fetch m = .ok s
        ∧ (s.status == "completed" || s.status == "failed"
            || s.status == "cancelled") = false) →
      Workflows.runAndWait env pollInterval timeout fuel = some r →
        r.1 = .error (.err "Workflow execution timed out") ∧ r.2.fetches ≤ 1)
    ∧ (∀ (env : PollEnv BatchJob) pollInterval timeout fuel h r,
      timeout < pollInterval → env.submit = .ok h →
      (∀ m, ∃ s, env.fetch m = .ok s
        ∧ (s.status == "completed" || s.status == "failed"
            || s.status == "cancelled") = false) →
      Webdata.batchScreenshotsAndWait env pollInterval timeout fuel = some r →
        r.1 = .error (.err "Batch job timed out") ∧ r.2.fetches ≤ 1)
    ∧ (∀ (env : PollEnv BatchJob) pollInterval timeout fuel h r,
      timeout < pollInterval → env.submit = .ok h →
      (∀ m, ∃ s, env.fetch m = .ok s
        ∧ (s.status == "completed" || s.status == "failed"
            || s.status == "cancelled") = false) →
      Webdata.batchExtractionsAndWait env pollInterval timeout fuel = some r →
        r.1 = .error (.err "Batch job timed out") ∧ r.2.fetches ≤ 1)
    ∧ (∀ (env : PollEnv BatchScreenshotJob) pollInterval timeout fuel h r,
      timeout < pollInterval → env.submit = .ok h →
      (∀ m, ∃ s, env.fetch m = .ok s
        ∧ (s.status == "completed" || s.status == "failed"
            || s.status == "cancelled") = false) →
      Screenshots.batchAndWait env pollInterval timeout fuel = some r →
        r.1 = .error (.err "Batch job timed out") ∧ r.2.fetches ≤ 1) := by
  refine ⟨?_, ?_, ?_, ?_, ?_, ?_⟩
  · intro env i t fuel h r hti hsub hnt hrun
    simp only [Webdata.screenshotAndWait, hsub, screenshotAndWaitLoop_eq_genLoop] at hrun
    exact genLoop_short_timeout screenshotSpec env i t hti hnt fuel env.submitDur 0 0 r hrun
  · intro env i t fuel h r hti hsub hnt hrun
    simp only [Webdata.extractAndWait, hsub, extractAndWaitLoop_eq_genLoop] at hrun
    exact genLoop_short_timeout extractionSpec env i t hti hnt fuel env.submitDur 0 0 r hrun
  · intro env i t fuel h r hti hsub hnt hrun
    simp only [Workflows.runAndWait, hsub, runAndWaitLoop_eq_genLoop] at hrun
    exact genLoop_short_timeout runSpec env i t hti hnt fuel env.submitDur 0 0 r hrun
  · intro env i t fuel h r hti hsub hnt hrun
    simp only [Webdata.batchScreenshotsAndWait, hsub, batchJobAndWaitLoop_eq_genLoop] at hrun
    exact genLoop_short_timeout batchJobSpec env i t hti hnt fuel env.submitDur 0 0 r hrun
  · intro env i t fuel h r hti hsub hnt hrun
    simp only [Webdata.batchExtractionsAndWait, hsub, batchJobAndWaitLoop_eq_genLoop] at hrun
    exact genLoop_short_timeout batchJobSpec env i t hti hnt fuel env.submitDur 0 0 r hrun
  · intro env i t fuel h r hti hsub hnt hrun
    simp only [Screenshots.batchAndWait, hsub, batchAndWaitLoop_eq_genLoop] at hrun
    exact genLoop_short_timeout batchScreenshotJobSpec env i t hti hnt fuel env.submitDur 0 0 r hrun

/-- Witness for the C4 theorem: interval 5000 > timeout 100, submit takes
40ms, the one fetch 30ms; exactly one fetch happens, then the timeout. -/
theorem short_timeout_at_most_one_fetch_witness :
    ((.error (.err "Screenshot timed out"), (⟨1, 1, 1⟩ : PollStats))
        : Except JsError Screenshot × PollStats).1
      = .error (.err "Screenshot timed out")
    ∧ ((⟨1, 1, 1⟩ : PollStats)).fetches ≤ 1 := by
  exact short_timeout_at_most_one_fetch.1
    ⟨.ok "handle-F", 40, fun _ => .ok processingShot, fun _ => 30⟩ 5000 100 4 "handle-F"
    (.error (.err "Screenshot timed out"), ⟨1, 1, 1⟩)
    (by decide) rfl (fun m => ⟨processingShot, rfl, rfl⟩) (by decide)

/-- Claim C5: each wait makes the submit call exactly once, and when the
submit call throws, its error propagates as-is with zero fetches and zero
sleeps — a failed submission never enters the poll loop. -/
theorem submit_once_and_submit_error_propagates :
    (∀ (env : PollEnv Screenshot) pollInterval timeout fuel,
      (∀ r, Webdata.screenshotAndWait env pollInterval timeout fuel = some r →
        r.2.submits = 1)
      ∧ (∀ e, env.submit = .error e →
        Webdata.screenshotAndWait env pollInterval timeout fuel = some (.error e, ⟨1, 0, 0⟩)))
    ∧ (∀ (env : PollEnv Extraction) pollInterval timeout fuel,
      (∀ r, Webdata.extractAndWait env pollInterval timeout fuel = some r →
        r.2.submits = 1)
      ∧ (∀ e, env.submit = .error e →
        Webdata.extractAndWait env pollInterval timeout fuel = some (.error e, ⟨1, 0, 0⟩)))
    ∧ (∀ (env : PollEnv WorkflowRun) pollInterval timeout fuel,
      (∀ r, Workflows.runAndWait env pollInterval timeout fuel = some r →
        r.2.submits = 1)
      ∧ (∀ e, env.submit = .error e →
        Workflows.runAndWait env pollInterval timeout fuel = some (.error e, ⟨1, 0, 0⟩)))
    ∧ (∀ (env : PollEnv BatchJob) pollInterval timeout fuel,
      (∀ r, Webdata.batchScreenshotsAndWait env pollInterval timeout fuel = some r →
        r.2.submits = 1)
      ∧ (∀ e, env.submit = .error e →
        Webdata.batchScreenshotsAndWait env pollInterval timeout fuel
          = some (.error e, ⟨1, 0, 0⟩)))
    ∧ (∀ (env : PollEnv BatchJob) pollInterval timeout fuel,
      (∀ r, Webdata.batchExtractionsAndWait env pollInterval timeout fuel = some r →
        r.2.submits = 1)
      ∧ (∀ e, env.submit = .error e →
        Webdata.batchExtractionsAndWait env pollInterval timeout fuel
          = some (.error e, ⟨1, 0, 0⟩)))
    ∧ (∀ (env : PollEnv BatchScreenshotJob) pollInterval timeout fuel,
      (∀ r, Screenshots.batchAndWait env pollInterval timeout fuel = some r →
        r.2.submits = 1)
      ∧ (∀ e, env.submit = .error e →
        Screenshots.batchAndWait env pollInterval timeout fuel
          = some (.error e, ⟨1, 0, 0⟩))) := by
  refine ⟨?_, ?_, ?_, ?_, ?_, ?_⟩
  · intro env i t fuel
    constructor
    · intro r hr
      cases hsub : env.submit with
      | error e =>
        simp only [Webdata.screenshotAndWait, hsub] at hr
        cases hr; rfl
      | ok h =>
        simp only [Webdata.screenshotAndWait, hsub, screenshotAndWaitLoop_eq_genLoop] at hr
        exact genLoop_submits_eq_one screenshotSpec env i t fuel env.submitDur 0 0 r hr
    · intro e hsub
      simp only [Webdata.screenshotAndWait, hsub]
  · intro env i t fuel
    constructor
    · intro r hr
      cases hsub : env.submit with
      | error e =>
        simp only [Webdata.extractAndWait, hsub] at hr
        cases hr; rfl
      | ok h =>
        simp only [Webdata.extractAndWait, hsub, extractAndWaitLoop_eq_genLoop] at hr
        exact genLoop_submits_eq_one extractionSpec env i t fuel env.submitDur 0 0 r hr
    · intro e hsub
      simp only [Webdata.extractAndWait, hsub]
  · intro env i t fuel
    constructor
    · intro r hr
      cases hsub : env.submit with
      | error e =>
        simp only [Workflows.runAndWait, hsub] at hr
        cases hr; rfl
      | ok h =>
        simp only [Workflows.runAndWait, hsub, runAndWaitLoop_eq_genLoop] at hr
        exact genLoop_submits_eq_one runSpec env i t fuel env.submitDur 0 0 r hr
    · intro e hsub
      simp only [Workflows.runAndWait, hsub]
  · intro env i t fuel
    constructor
    · intro r hr
      cases hsub : env.submit with
      | error e =>
        simp only [Webdata.batchScreenshotsAndWait, hsub] at hr
        cases hr; rfl
      | ok h =>
        simp only [Webdata.batchScreenshotsAndWait, hsub, batchJobAndWaitLoop_eq_genLoop] at hr
        exact genLoop_submits_eq_one batchJobSpec env i t fuel env.submitDur 0 0 r hr
    · intro e hsub
      simp only [Webdata.batchScreenshotsAndWait, hsub]
  · intro env i t fuel
    constructor
    · intro r hr
      cases hsub : env.submit with
      | error e =>
        simp only [Webdata.batchExtractionsAndWait, hsub] at hr
        cases hr; rfl
      | ok h =>
        simp only [Webdata.batchExtractionsAndWait, hsub, batchJobAndWaitLoop_eq_genLoop] at hr
        exact genLoop_submits_eq_one batchJobSpec env i t fuel env.submitDur 0 0 r hr
    · intro e hsub
      simp only [Webdata.batchExtractionsAndWait, hsub]
  · intro env i t fuel
    constructor
    · intro r hr
      cases hsub : env.submit with
      | error e =>
        simp only [Screenshots.batchAndWait, hsub] at hr
        cases hr; rfl
      | ok h =>
        simp only [Screenshots.batchAndWait, hsub, batchAndWaitLoop_eq_genLoop] at hr
        exact genLoop_submits_eq_one batchScreenshotJobSpec env i t fuel env.submitDur 0 0 r hr
    · intro e hsub
      simp only [Screenshots.batchAndWait, hsub]

/-- Witness for the C5 theorem: a submission that throws `Error("invalid
url")` propagates with zero fetches and zero sleeps. -/
theorem submit_once_and_submit_error_propagates_witness :
    Webdata.screenshotAndWait ⟨.error (.err "invalid url"), 0, fun _ => .error (.err "x"), fun _ => 0⟩
        1000 60000 3
      = some (.error (.err "invalid url"), ⟨1, 0, 0⟩) := by
  exact (submit_once_and_submit_error_propagates.1
    ⟨.error (.err "invalid url"), 0, fun _ => .error (.err "x"), fun _ => 0⟩ 1000 60000 3).2
    (.err "invalid url") rfl

/-- Claim C10: the batch waits return the job snapshot on any terminal
status — `completed`, `failed` or `cancelled` alike — after k non-terminal
fetches, and never raise an operation-failure error: a failed terminal batch
snapshot is an `.ok` return. -/
theorem batch_terminal_snapshot_returned_never_raises :
    (∀ (env : PollEnv BatchJob) pollInterval timeout k fuel h s,
      env.submit = .ok h →
      (∀ j, j < k → ∃ sj, env.fetch j = .ok sj
        ∧ (sj.status == "completed" || sj.status == "failed"
            || sj.status == "cancelled") = false) →
      (∀ j, j ≤ k → elapsedAt env pollInterval j < timeout) →
      env.fetch k = .ok s →
      (s.status == "completed" || s.status == "failed" || s.status == "cancelled") = true →
      Webdata.batchScreenshotsAndWait env pollInterval timeout (k + (fuel + 1))
        = some (.ok s, ⟨1, k + 1, k⟩))
    ∧ (∀ (env : PollEnv BatchJob) pollInterval timeout k fuel h s,
      env.submit = .ok h →
      (∀ j, j < k → ∃ sj, env.fetch j = .ok sj
        ∧ (sj.status == "completed" || sj.status == "failed"
            || sj.status == "cancelled") = false) →
      (∀ j, j ≤ k → elapsedAt env pollInterval j < timeout) →
      env.fetch k = .ok s →
      (s.status == "completed" || s.status == "failed" || s.status == "cancelled") = true →
      Webdata.batchExtractionsAndWait env pollInterval timeout (k + (fuel + 1))
        = some (.ok s, ⟨1, k + 1, k⟩))
    ∧ (∀ (env : PollEnv BatchScreenshotJob) pollInterval timeout k fuel h s,
      env.submit = .ok h →
      (∀ j, j < k → ∃ sj, env.fetch j = .ok sj
        ∧ (sj.status == "completed" || sj.status == "failed"
            || sj.status == "cancelled") = false) →
      (∀ j, j ≤ k → elapsedAt env pollInterval j < timeout) →
      env.fetch k = .ok s →
      (s.status == "completed" || s.status == "failed" || s.status == "cancelled") = true →
      Screenshots.batchAndWait env pollInterval timeout (k + (fuel + 1))
        = some (.ok s, ⟨1, k + 1, k⟩)) := by
  refine ⟨?_, ?_, ?_⟩
  · intro env i t k fuel h s hsub hpre hdl hk ht
    simp only [Webdata.batchScreenshotsAndWait, hsub, batchJobAndWaitLoop_eq_genLoop]
    rw [show env.submitDur = elapsedAt env i 0 from rfl,
      genLoop_advance batchJobSpec env i t k hpre (fun j hj => hdl j (Nat.le_of_lt hj)) (fuel + 1),
      genLoop_terminal batchJobSpec env i t fuel _ _ _ (hdl k (Nat.le_refl k)) hk ht]
    simp [batchJobSpec]
  · intro env i t k fuel h s hsub hpre hdl hk ht
    simp only [Webdata.batchExtractionsAndWait, hsub, batchJobAndWaitLoop_eq_genLoop]
    rw [show env.submitDur = elapsedAt env i 0 from rfl,
      genLoop_advance batchJobSpec env i t k hpre (fun j hj => hdl j (Nat.le_of_lt hj)) (fuel + 1),
      genLoop_terminal batchJobSpec env i t fuel _ _ _ (hdl k (Nat.le_refl k)) hk ht]
    simp [batchJobSpec]
  · intro env i t k fuel h s hsub hpre hdl hk ht
    simp only [Screenshots.batchAndWait, hsub, batchAndWaitLoop_eq_genLoop]
    rw [show env.submitDur = elapsedAt env i 0 from rfl,
      genLoop_advance batchScreenshotJobSpec env i t k hpre
        (fun j hj => hdl j (Nat.le_of_lt hj)) (fuel + 1),
      genLoop_terminal batchScreenshotJobSpec env i t fuel _ _ _ (hdl k (Nat.le_refl k)) hk ht]
    simp [batchScreenshotJobSpec]

/-- Witness for the C10 theorem: one `processing` fetch, then a `failed`
terminal fetch, returned as `.ok` — no error raised. -/
theorem batch_terminal_snapshot_returned_never_raises_witness :
    Webdata.batchScreenshotsAndWait
        ⟨.ok "job-1", 0,
          fun n => .ok (if n == 0 then processingBatchJob else failedBatchJob), fun _ => 0⟩
        2000 300000 (1 + (3 + 1))
      = some (.ok failedBatchJob, ⟨1, 1 + 1, 1⟩) := by
  exact batch_terminal_snapshot_returned_never_raises.1
    ⟨.ok "job-1", 0,
      fun n => .ok (if n == 0 then processingBatchJob else failedBatchJob), fun _ => 0⟩
    2000 300000 1 3 "job-1" failedBatchJob rfl
    (fun j hj => by rw [Nat.lt_one_iff] at hj; subst hj; exact ⟨processingBatchJob, rfl, rfl⟩)
    (fun j hj => by rw [Nat.le_one_iff_eq_zero_or_eq_one] at hj
                    cases hj with
                    | inl h0 => subst h0; decide
                    | inr h1 => subst h1; decide)
    rfl rfl

end Stack0
